import Mathlib

/-!
Verification development for the accountant bot (`src/app.py`).

The Python source is shallowly embedded below.  Strings are modelled over
their character lists; every helper mirrors the corresponding Python string
operation restricted to ASCII text (Python's `str.strip`, `str.lower`,
`re`'s `\d`, `\D`, `\w` classes also cover some non-ASCII characters, which
the repository's data never uses).  Stateful operations (the token cache,
file writes/uploads) are embedded as pure functions over an explicit state,
returning both the outcome and the effects performed.
-/

namespace AccountantBot

/-! ### Python string primitives (ASCII model) -/

/-- Python `str.strip()`: drop whitespace from both ends. -/
def pyStrip (s : String) : String :=
  String.mk (((s.toList.dropWhile Char.isWhitespace).reverse.dropWhile
      Char.isWhitespace).reverse)

/-- Python `str.lower()` (ASCII). -/
def pyLower (s : String) : String :=
  String.mk (s.toList.map Char.toLower)

/-- Python `str.upper()` (ASCII). -/
def pyUpper (s : String) : String :=
  String.mk (s.toList.map Char.toUpper)

/-- `pat` occurs as a contiguous sublist of the input. -/
def infixOfB (pat : List Char) : List Char → Bool
  | [] => pat.isEmpty
  | c :: rest => pat.isPrefixOf (c :: rest) || infixOfB pat rest

/-- Python `sub in s` (substring containment), also the semantics of
`pandas.Series.str.contains` applied to an `re.escape`d needle. -/
def pyContains (s sub : String) : Bool :=
  infixOfB sub.toList s.toList

/-- Python `s.startswith(p)`. -/
def pyStartsWith (s p : String) : Bool :=
  p.toList.isPrefixOf s.toList

/-- Python `sep.join(xs)`. -/
def pyJoin (sep : String) : List String → String
  | [] => ""
  | [x] => x
  | x :: y :: xs => x ++ sep ++ pyJoin sep (y :: xs)

/-- Python `s[:n]` on strings. -/
def pyTake (n : Nat) (s : String) : String :=
  String.mk (s.toList.take n)

/-! ### `_norm_po_pr_tokens` (src/app.py lines 142-156)

The regex `(?i)(?:SPXBR-)?(PO|PR)-?(\d+)` is embedded by a direct model of
Python's leftmost-match search with the pattern's backtracking order:
the optional `SPXBR-` prefix is tried first, alternation tries `PO` before
`PR`, and `-?` and `\d+` are greedy. -/

/-- Match the literal `SPXBR-` case-insensitively at the head, returning
the rest of the input. -/
def matchSPXBR : List Char → Option (List Char)
  | a :: b :: c :: d :: e :: f :: rest =>
    if [a, b, c, d, e, f].map Char.toLower = ['s', 'p', 'x', 'b', 'r', '-'] then
      some rest
    else none
  | _ => none

/-- Skip the optional dash of `-?`.  (The greedy `-?` never needs to
backtrack here: if a dash is present but not followed by a digit, the
dash-less alternative would put the dash itself at the `\d` position and
fail as well.) -/
def skipDash : List Char → List Char
  | '-' :: rest => rest
  | cs => cs

/-- After the `(PO|PR)` group: match `-?(\d+)` (optional dash, then a
nonempty maximal digit run), returning the canonical group values. -/
def afterType (typ : String) (cs : List Char) : Option (String × String) :=
  match (skipDash cs).takeWhile Char.isDigit with
  | [] => none
  | d :: ds => some (typ, String.mk (d :: ds))

/-- Match `(PO|PR)-?(\d+)` case-insensitively at the head of the input. -/
def matchTypeNum : List Char → Option (String × String)
  | c1 :: c2 :: rest =>
    if c1.toLower = 'p' ∧ c2.toLower = 'o' then afterType "PO" rest
    else if c1.toLower = 'p' ∧ c2.toLower = 'r' then afterType "PR" rest
    else none
  | _ => none

/-- Match `(?:SPXBR-)?(PO|PR)-?(\d+)` at the head of the input (prefix
branch first, then the prefix-less branch, as the regex engine backtracks). -/
def matchAt (cs : List Char) : Option (String × String) :=
  match matchSPXBR cs with
  | some rest =>
    match matchTypeNum rest with
    | some v => some v
    | none => matchTypeNum cs
  | none => matchTypeNum cs

/-- `re.search` of the PO/PR pattern: try each start position left to
right. Returns `(group(1).upper(), group(2))`. -/
def searchPoPr : List Char → Option (String × String)
  | [] => none
  | c :: rest =>
    match matchAt (c :: rest) with
    | some v => some v
    | none => searchPoPr rest

/-- `re.sub(r"\D+", "", s)`: the digits of `s`, in order. -/
def digitsOf (s : String) : String :=
  String.mk (s.toList.filter Char.isDigit)

/-- The variant list built by `_norm_po_pr_tokens` before lowercasing. -/
def variantsFor (typ : Option String) (num : String) : List String :=
  if num = "" then []
  else
    match typ with
    | some t => [t ++ "-" ++ num, "SPXBR-" ++ t ++ "-" ++ num]
    | none => ["PO-" ++ num, "SPXBR-PO-" ++ num, "PR-" ++ num, "SPXBR-PR-" ++ num]

/-- `_norm_po_pr_tokens` (src/app.py lines 142-156). -/
def norm_po_pr_tokens (raw : String) : List String :=
  let s := pyStrip raw
  let tn : Option String × String :=
    match searchPoPr s.toList with
    | some (t, n) => (some t, n)
    | none => (none, digitsOf s)
  ((variantsFor tn.1 tn.2).filter (fun v => v ≠ "")).map pyLower

/-! ### C1: lemmas and theorem -/

lemma append_ne_empty_of_data_ne (a b : String) (h : a.data ≠ []) :
    a ++ b ≠ "" := by
  intro hab
  apply h
  have := String.ext_iff.mp hab
  simp [String.data_append] at this
  exact this.1

lemma afterType_shape {typ : String} {cs : List Char} {t n : String}
    (h : afterType typ cs = some (t, n)) : t = typ ∧ n ≠ "" := by
  unfold afterType at h
  cases htw : (skipDash cs).takeWhile Char.isDigit with
  | nil => rw [htw] at h; simp at h
  | cons d ds =>
    rw [htw] at h
    simp at h
    refine ⟨h.1.symm, ?_⟩
    rw [← h.2]
    intro hmk
    have := String.ext_iff.mp hmk
    simp at this

lemma matchTypeNum_shape {cs : List Char} {t n : String}
    (h : matchTypeNum cs = some (t, n)) : (t = "PO" ∨ t = "PR") ∧ n ≠ "" := by
  match cs with
  | [] => simp [matchTypeNum] at h
  | [c] => simp [matchTypeNum] at h
  | c1 :: c2 :: rest =>
    rw [show matchTypeNum (c1 :: c2 :: rest) =
          (if c1.toLower = 'p' ∧ c2.toLower = 'o' then afterType "PO" rest
           else if c1.toLower = 'p' ∧ c2.toLower = 'r' then afterType "PR" rest
           else none) from rfl] at h
    by_cases h1 : c1.toLower = 'p' ∧ c2.toLower = 'o'
    · rw [if_pos h1] at h
      exact ⟨Or.inl (afterType_shape h).1, (afterType_shape h).2⟩
    · rw [if_neg h1] at h
      by_cases h2 : c1.toLower = 'p' ∧ c2.toLower = 'r'
      · rw [if_pos h2] at h
        exact ⟨Or.inr (afterType_shape h).1, (afterType_shape h).2⟩
      · rw [if_neg h2] at h
        exact absurd h (by simp)

lemma matchAt_shape {cs : List Char} {t n : String}
    (h : matchAt cs = some (t, n)) : (t = "PO" ∨ t = "PR") ∧ n ≠ "" := by
  unfold matchAt at h
  split at h
  · split at h
    · rename_i v hmt
      injection h with hv
      rw [hv] at hmt
      exact matchTypeNum_shape hmt
    · exact matchTypeNum_shape h
  · exact matchTypeNum_shape h

lemma searchPoPr_shape {cs : List Char} {t n : String}
    (h : searchPoPr cs = some (t, n)) : (t = "PO" ∨ t = "PR") ∧ n ≠ "" := by
  induction cs with
  | nil => simp [searchPoPr] at h
  | cons c rest ih =>
    unfold searchPoPr at h
    split at h
    · rename_i v hma
      injection h with hv
      rw [hv] at hma
      exact matchAt_shape hma
    · exact ih h

/-- C1: PO/PR query normalization.  If the embedded search of
`(?i)(?:SPXBR-)?(PO|PR)-?(\d+)` over the stripped query finds a type, the
normalizer returns exactly the two lowercase variants `{type}-{num}` and
`spxbr-{type}-{num}`; if no type is found it strips non-digits to obtain
the id and returns the variants for both types `PO` and `PR` (four
variants), and it returns the empty list when no digits remain. -/
theorem po_pr_query_normalization (raw : String) :
    (∀ typ num, searchPoPr (pyStrip raw).toList = some (typ, num) →
      norm_po_pr_tokens raw =
        [pyLower (typ ++ "-" ++ num), pyLower ("SPXBR-" ++ typ ++ "-" ++ num)]) ∧
    (searchPoPr (pyStrip raw).toList = none →
      norm_po_pr_tokens raw =
        (if digitsOf (pyStrip raw) = "" then ([] : List String)
         else [pyLower ("PO-" ++ digitsOf (pyStrip raw)),
               pyLower ("SPXBR-PO-" ++ digitsOf (pyStrip raw)),
               pyLower ("PR-" ++ digitsOf (pyStrip raw)),
               pyLower ("SPXBR-PR-" ++ digitsOf (pyStrip raw))])) := by
  constructor
  · intro typ num h
    have hs := searchPoPr_shape h
    simp only [norm_po_pr_tokens]
    rw [h]
    rcases hs.1 with rfl | rfl <;>
    · simp only [variantsFor, if_neg hs.2]
      rw [List.filter_eq_self.mpr ?_]
      · simp
      · intro a ha
        simp at ha
        rcases ha with rfl | rfl <;>
        · simp only [decide_eq_true_eq]
          exact append_ne_empty_of_data_ne _ _ (by decide)
  · intro h
    simp only [norm_po_pr_tokens]
    rw [h]
    by_cases hd : digitsOf (pyStrip raw) = ""
    · simp only [variantsFor, if_pos hd, hd]
      simp
    · simp only [variantsFor, if_neg hd]
      rw [List.filter_eq_self.mpr ?_]
      · simp
      · intro a ha
        simp at ha
        rcases ha with rfl | rfl | rfl | rfl <;>
        · simp only [decide_eq_true_eq]
          exact append_ne_empty_of_data_ne _ _ (by decide)

/-- Witness for C1: a concrete query exercising the typed branch. -/
theorem po_pr_query_normalization_witness :
    norm_po_pr_tokens " spxbr-Po-00123 " =
      [pyLower ("PO" ++ "-" ++ "00123"), pyLower ("SPXBR-" ++ "PO" ++ "-" ++ "00123")] :=
  (po_pr_query_normalization " spxbr-Po-00123 ").1 "PO" "00123" (by decide)

/-! ### Data model: tables and errors

A pandas `DataFrame` read from the `ReportOutput` sheet is modelled as a
column-name list plus a row list; every cell is carried as the string the
Python code obtains with `.astype(str)` (the filters only ever inspect the
string form of a cell).  Python exceptions are modelled by `BotErr`, with
one constructor per error kind of the spec: `ValueError` at the two
missing-column raise sites is `dataShape`, the empty-export `RuntimeError`
is `emptyResult`, the missing-credential `RuntimeError` is `authConfig`,
the two token-fetch `RuntimeError`s are `authRequest`/`authResponse`, and
arbitrary per-file scan exceptions are `exn`. -/

structure DataFrame where
  cols : List String
  rows : List (List String)
  deriving DecidableEq, Repr

/-- pandas `df.empty`: true when either axis has length zero. -/
def dfEmpty (df : DataFrame) : Bool :=
  df.rows.isEmpty || df.cols.isEmpty

inductive BotErr
  | dataShape (msg : String)
  | emptyResult (msg : String)
  | authConfig (msg : String)
  | authRequest (msg : String)
  | authResponse (msg : String)
  | configError (msg : String)
  | exn (msg : String)
  deriving DecidableEq, Repr

/-! ### `_filter_po_pr` (src/app.py lines 158-175) -/

/-- The column positions whose name, stripped and lowercased, is one of the
three designated names (`for c in df.columns: ... cols.append(c)`).
Columns are tracked by position so that `df[c]` cell access is by index. -/
def po_pr_cols (df : DataFrame) : List Nat :=
  (List.range df.cols.length).filter (fun i =>
    ["po_number", "source desc", "line desc"].contains
      (pyLower (pyStrip (df.cols.getD i ""))))

/-- A single-quote string for `pyReprStrList`. -/
def sq : String := Char.toString (Char.ofNat 39)

/-- Python `repr` of a list of strings, as interpolated into the
`_filter_po_pr` error message (quote-escaping inside names is not
modelled; the repository's column names contain no quotes). -/
def pyReprStrList (xs : List String) : String :=
  "[" ++ pyJoin ", " (xs.map (fun x => sq ++ x ++ sq)) ++ "]"

/-- The row mask of `_filter_po_pr`: a row survives when some designated
column's lowercased string value contains some normalized token. -/
def poPrRowMatch (cols : List Nat) (tokens : List String) (r : List String) : Bool :=
  cols.any (fun i => tokens.any (fun tk => pyContains (pyLower (r.getD i "")) tk))

/-- `_filter_po_pr` (src/app.py lines 158-175). -/
def filter_po_pr (df : DataFrame) (query : String) : Except BotErr DataFrame :=
  let cols := po_pr_cols df
  if cols = [] then
    .error (.dataShape
      ("Colunas esperadas não encontradas. Colunas: " ++ pyReprStrList df.cols))
  else
    let tokens := norm_po_pr_tokens query
    if tokens = [] then .ok ⟨df.cols, []⟩
    else .ok ⟨df.cols, df.rows.filter (poPrRowMatch cols tokens)⟩

/-! ### `_filter_journals` (src/app.py lines 177-185) -/

/-- Position of the first column whose name, stripped and uppercased, is a
journal-column name (`for c in df.columns: ... col = c; break`). -/
def journal_col_idx (df : DataFrame) : Option Nat :=
  df.cols.findIdx? (fun c =>
    ["JOURNAL_DOC_NO", "JOURNAL DOC NO", "JOURNAL_DOC"].contains
      (pyUpper (pyStrip c)))

/-- The requested-id set after trimming blanks:
`{j.strip() for j in journals if j.strip()}` (kept as a list; only
membership is ever used). -/
def journalIdSet (journals : List String) : List String :=
  (journals.map pyStrip).filter (fun j => j ≠ "")

/-- `_filter_journals` (src/app.py lines 177-185). -/
def filter_journals (df : DataFrame) (journals : List String) : Except BotErr DataFrame :=
  match journal_col_idx df with
  | none => .error (.dataShape "Coluna JOURNAL_DOC_NO não encontrada.")
  | some i =>
    .ok ⟨df.cols, df.rows.filter (fun r => (journalIdSet journals).contains (r.getD i ""))⟩

instance {ε α : Type} [DecidableEq ε] [DecidableEq α] : DecidableEq (Except ε α) :=
  fun a b =>
    match a, b with
    | .ok x, .ok y =>
      if h : x = y then isTrue (by rw [h]) else isFalse (by intro hh; cases hh; exact h rfl)
    | .error x, .error y =>
      if h : x = y then isTrue (by rw [h]) else isFalse (by intro hh; cases hh; exact h rfl)
    | .ok _, .error _ => isFalse (by intro hh; cases hh)
    | .error _, .ok _ => isFalse (by intro hh; cases hh)

/-! ### C2: lemmas and theorem -/

lemma mem_journalIdSet {journals : List String} {x : String} :
    x ∈ journalIdSet journals ↔ (∃ j ∈ journals, pyStrip j = x) ∧ x ≠ "" := by
  simp [journalIdSet, List.mem_filter, List.mem_map]

/-- C2: journal filter semantics.  Whenever the table has a journal column
(first matching position `i`), a row is in the result iff the string form
of its journal-column value is exactly equal to one of the requested ids
after trimming blanks from the id set; and concretely a stored value
`"J123"` does not match a requested id `"j123"`. -/
theorem journal_filter_exact_match (df : DataFrame) (journals : List String)
    (i : Nat) (hcol : journal_col_idx df = some i) :
    (∃ out, filter_journals df journals = .ok out ∧ out.cols = df.cols ∧
      ∀ r, r ∈ out.rows ↔
        r ∈ df.rows ∧ ∃ j ∈ journals, pyStrip j ≠ "" ∧ r.getD i "" = pyStrip j) ∧
    filter_journals ⟨["JOURNAL_DOC_NO"], [["J123"]]⟩ ["j123"] =
      .ok ⟨["JOURNAL_DOC_NO"], []⟩ := by
  constructor
  · refine ⟨⟨df.cols,
      df.rows.filter (fun r => (journalIdSet journals).contains (r.getD i ""))⟩,
      ?_, rfl, ?_⟩
    · simp [filter_journals, hcol]
    · intro r
      rw [List.mem_filter]
      constructor
      · rintro ⟨hr, hc⟩
        refine ⟨hr, ?_⟩
        have hmem : (r.getD i "") ∈ journalIdSet journals := by simpa using hc
        obtain ⟨⟨j, hj, hjs⟩, hne⟩ := mem_journalIdSet.mp hmem
        exact ⟨j, hj, by rw [hjs]; exact hne, hjs.symm⟩
      · rintro ⟨hr, j, hj, hne, hval⟩
        refine ⟨hr, ?_⟩
        have hmem : (r.getD i "") ∈ journalIdSet journals :=
          mem_journalIdSet.mpr ⟨⟨j, hj, hval.symm⟩, by rw [hval]; exact hne⟩
        simpa using hmem
  · rfl

/-- Witness for C2: a table holding the journal column in position 0. -/
theorem journal_filter_exact_match_witness :
    (∃ out,
      filter_journals ⟨["journal_doc_no "], [["J7"], ["X8"]]⟩ [" J7 "] = .ok out ∧
      out.cols = ["journal_doc_no "] ∧
      ∀ r, r ∈ out.rows ↔
        r ∈ [["J7"], ["X8"]] ∧
          ∃ j ∈ [" J7 "], pyStrip j ≠ "" ∧ r.getD 0 "" = pyStrip j) ∧
    filter_journals ⟨["JOURNAL_DOC_NO"], [["J123"]]⟩ ["j123"] =
      .ok ⟨["JOURNAL_DOC_NO"], []⟩ :=
  journal_filter_exact_match ⟨["journal_doc_no "], [["J7"], ["X8"]]⟩ [" J7 "] 0 rfl

/-! ### C5: theorem -/

/-- C5: missing-column failure.  A table none of whose column names
normalizes to a designated PO/PR column makes `_filter_po_pr` fail with the
`DataShapeError` (`ValueError`) regardless of the query, and a table with
no journal column makes `_filter_journals` fail with `DataShapeError`
regardless of the requested ids. -/
theorem missing_columns_data_shape :
    (∀ (df : DataFrame) (query : String),
      (∀ c ∈ df.cols,
        ["po_number", "source desc", "line desc"].contains (pyLower (pyStrip c)) = false) →
      filter_po_pr df query = .error (.dataShape
        ("Colunas esperadas não encontradas. Colunas: " ++ pyReprStrList df.cols))) ∧
    (∀ (df : DataFrame) (journals : List String),
      (∀ c ∈ df.cols,
        ["JOURNAL_DOC_NO", "JOURNAL DOC NO", "JOURNAL_DOC"].contains (pyUpper (pyStrip c)) = false) →
      filter_journals df journals =
        .error (.dataShape "Coluna JOURNAL_DOC_NO não encontrada.")) := by
  constructor
  · intro df query hnone
    have hcols : po_pr_cols df = [] := by
      rw [po_pr_cols, List.filter_eq_nil_iff]
      intro i hi
      rw [List.mem_range] at hi
      rw [List.getD_eq_getElem df.cols "" hi]
      have h := hnone df.cols[i] (List.getElem_mem hi)
      simp at h
      simp [h]
    simp [filter_po_pr, hcols]
  · intro df journals hnone
    have hidx : journal_col_idx df = none := by
      rw [journal_col_idx, List.findIdx?_eq_none_iff]
      intro c hc
      have h := hnone c hc
      simp at h
      simp [h]
    simp [filter_journals, hidx]

/-- Witness for C5: a table with unrelated columns fails both filters. -/
theorem missing_columns_data_shape_witness :
    filter_po_pr ⟨["ACCOUNT", "AMOUNT"], [["a", "1"]]⟩ "PO-123" =
      .error (.dataShape
        ("Colunas esperadas não encontradas. Colunas: " ++
          pyReprStrList ["ACCOUNT", "AMOUNT"])) ∧
    filter_journals ⟨["ACCOUNT", "AMOUNT"], [["a", "1"]]⟩ ["J1"] =
      .error (.dataShape "Coluna JOURNAL_DOC_NO não encontrada.") :=
  ⟨missing_columns_data_shape.1 ⟨["ACCOUNT", "AMOUNT"], [["a", "1"]]⟩ "PO-123"
      (by decide),
    missing_columns_data_shape.2 ⟨["ACCOUNT", "AMOUNT"], [["a", "1"]]⟩ ["J1"]
      (by decide)⟩

/-! ### `_scan_gls_apply` (src/app.py lines 187-202)

The remote part of the per-file loop — `_download_file_bytes` followed by
`_read_report_output` followed by the filter call — is abstracted into a
single `pipeline` function from the file name to `Except BotErr DataFrame`
(`.error` models any exception raised while downloading, parsing or
filtering that file).  The candidate list produced by `_list_gl_files`
(already most-recent-first) is passed in as the list of file names.
`pd.concat(..., ignore_index=True)` is modelled for frames sharing a
schema, which is what the loop produces (every part is the sheet's columns
plus the `_GL_FILE_` tag). -/

/-- pandas column assignment `part["_GL_FILE_"] = name`: overwrite the
column if the label exists, else append it on the right. -/
def setCol (df : DataFrame) (name v : String) : DataFrame :=
  match df.cols.findIdx? (fun c => c = name) with
  | some i => ⟨df.cols, df.rows.map (fun r => r.set i v)⟩
  | none => ⟨df.cols ++ [name], df.rows.map (fun r => r ++ [v])⟩

/-- `pd.concat` over frames sharing one schema. -/
def concatFrames : List DataFrame → DataFrame
  | [] => ⟨[], []⟩
  | d :: ds => ⟨d.cols, (d :: ds).flatMap (fun x => x.rows)⟩

/-- The `rows` list accumulated by the `for f in files:` loop: per-file
errors are caught and skipped, empty parts are dropped, surviving parts are
tagged with their source file name. -/
def scan_parts (pipeline : String → Except BotErr DataFrame) :
    List String → List DataFrame
  | [] => []
  | f :: fs =>
    match pipeline f with
    | .ok part =>
      if dfEmpty part then scan_parts pipeline fs
      else setCol part "_GL_FILE_" f :: scan_parts pipeline fs
    | .error _ => scan_parts pipeline fs

/-- `_scan_gls_apply` (src/app.py lines 187-202). -/
def scan_gls_apply (pipeline : String → Except BotErr DataFrame)
    (files : List String) : DataFrame :=
  match scan_parts pipeline files with
  | [] => ⟨[], []⟩
  | d :: ds => concatFrames (d :: ds)

/-- What a file contributes to the scan: `none` when its pipeline raised or
its filtered part was empty, otherwise its tagged part. -/
def scan_keep (pipeline : String → Except BotErr DataFrame) (f : String) :
    Option DataFrame :=
  match pipeline f with
  | .ok part => if dfEmpty part then none else some (setCol part "_GL_FILE_" f)
  | .error _ => none

/-! ### C3: lemmas and theorem -/

lemma scan_parts_eq_filterMap (pipeline : String → Except BotErr DataFrame)
    (files : List String) :
    scan_parts pipeline files = files.filterMap (scan_keep pipeline) := by
  induction files with
  | nil => rfl
  | cons f fs ih =>
    rw [scan_parts, List.filterMap_cons]
    cases hp : pipeline f with
    | ok part =>
      by_cases he : dfEmpty part
      · simp [scan_keep, hp, he, ih]
      · simp [scan_keep, hp, he, ih]
    | error e => simp [scan_keep, hp, ih]

lemma scan_gls_apply_eq (pipeline : String → Except BotErr DataFrame)
    (files : List String) :
    scan_gls_apply pipeline files =
      concatFrames (files.filterMap (scan_keep pipeline)) := by
  rw [scan_gls_apply, scan_parts_eq_filterMap]
  cases files.filterMap (scan_keep pipeline) with
  | nil => rfl
  | cons d ds => rfl

/-- C3: scan-and-aggregate fault isolation.  The scan concatenates, in
file order, the tagged non-empty parts of exactly the files whose pipeline
succeeded; a file whose download/parse/filter raises is skipped without
aborting the scan, so the result over `pre ++ [bad] ++ post` equals the
result over `pre ++ post`; and when every file errors or yields no match
the scan returns the empty table. -/
theorem scan_fault_isolation (pipeline : String → Except BotErr DataFrame) :
    (∀ files, scan_gls_apply pipeline files =
      concatFrames (files.filterMap (scan_keep pipeline))) ∧
    (∀ pre bad post e, pipeline bad = .error e →
      scan_gls_apply pipeline (pre ++ bad :: post) =
        scan_gls_apply pipeline (pre ++ post)) ∧
    (∀ files, (∀ f ∈ files, scan_keep pipeline f = none) →
      scan_gls_apply pipeline files = ⟨[], []⟩) := by
  refine ⟨scan_gls_apply_eq pipeline, ?_, ?_⟩
  · intro pre bad post e he
    rw [scan_gls_apply_eq, scan_gls_apply_eq]
    rw [List.filterMap_append, List.filterMap_cons]
    rw [show scan_keep pipeline bad = none by simp [scan_keep, he]]
    rw [List.filterMap_append]
  · intro files hall
    rw [scan_gls_apply_eq]
    rw [List.filterMap_eq_nil_iff.mpr hall]
    rfl

/-- A concrete per-file pipeline for the C3 witness: the middle file
raises, the others yield one matching row each. -/
def pipelineW : String → Except BotErr DataFrame := fun f =>
  if f = "GL_FP_2025_08.xlsx" then .error (.exn "corrupted sheet")
  else .ok ⟨["PO_NUMBER"], [["po-1 " ++ f]]⟩

/-- Witness for C3: dropping the erroring middle file leaves the other
files' matches. -/
theorem scan_fault_isolation_witness :
    scan_gls_apply pipelineW
        ["GL_FP_2025_09.xlsx", "GL_FP_2025_08.xlsx", "GL_FP_2025_07.xlsx"] =
      scan_gls_apply pipelineW ["GL_FP_2025_09.xlsx", "GL_FP_2025_07.xlsx"] :=
  (scan_fault_isolation pipelineW).2.1 ["GL_FP_2025_09.xlsx"] "GL_FP_2025_08.xlsx"
    ["GL_FP_2025_07.xlsx"] (.exn "corrupted sheet") rfl

/-! ### `_save_and_upload` (src/app.py lines 204-213)

The side effects (local `to_excel` write, Drive upload, best-effort local
delete) are returned as an explicit operation list; the real function's
return value is the uploaded file's share link, represented here by the
generated file name that determines it. -/

/-- The class `[A-Za-z0-9_-]`. -/
def safeChar (c : Char) : Bool :=
  c.isAlpha || c.isDigit || c == '_' || c == '-'

/-- `re.sub(r"[^A-Za-z0-9_-]+", "_", s)`: each maximal run of characters
outside the class becomes a single underscore.  `inRun` records whether
the previous character belonged to an unsafe run. -/
def subUnsafeRuns : Bool → List Char → List Char
  | _, [] => []
  | inRun, c :: rest =>
    if safeChar c then c :: subUnsafeRuns false rest
    else if inRun then subUnsafeRuns true rest
    else '_' :: subUnsafeRuns true rest

/-- The sanitized tag: `re.sub(r"[^A-Za-z0-9_-]+", "_", tag)[:50] or
"resultado"`. -/
def safe_tag (tag : String) : String :=
  let s := pyTake 50 (String.mk (subUnsafeRuns false tag.toList))
  if s = "" then "resultado" else s

inductive FileOp
  | writeLocal (name : String)
  | uploadDrive (name : String)
  | removeLocal (name : String)
  deriving DecidableEq, Repr

/-- `_save_and_upload` (src/app.py lines 204-213). -/
def save_and_upload (df : DataFrame) (tag : String) (now : Nat) :
    Except BotErr (String × List FileOp) :=
  if dfEmpty df then .error (.emptyResult "Nenhuma linha para salvar.")
  else
    let fname := "resultado_" ++ safe_tag tag ++ "_" ++ toString now ++ ".xlsx"
    .ok (fname, [.writeLocal fname, .uploadDrive fname, .removeLocal fname])

/-! ### C6: theorem -/

/-- C6: empty-export atomicity.  On a table with no rows,
`_save_and_upload` fails with `EmptyResultError` (the `RuntimeError` raise
on line 206), and no file operation — neither a local write nor an
upload — is performed for any tag and timestamp. -/
theorem empty_export_atomic (df : DataFrame) (tag : String) (now : Nat)
    (h : df.rows = []) :
    save_and_upload df tag now = .error (.emptyResult "Nenhuma linha para salvar.") ∧
    ∀ fname ops, save_and_upload df tag now ≠ .ok (fname, ops) := by
  have he : dfEmpty df = true := by simp [dfEmpty, h]
  refine ⟨by simp [save_and_upload, he], ?_⟩
  intro fname ops hok
  rw [save_and_upload, if_pos he] at hok
  cases hok

/-- Witness for C6: a rowless table with columns. -/
theorem empty_export_atomic_witness :
    save_and_upload ⟨["PO_NUMBER"], []⟩ "PO-123" 1700000000 =
        .error (.emptyResult "Nenhuma linha para salvar.") ∧
    ∀ fname ops,
      save_and_upload ⟨["PO_NUMBER"], []⟩ "PO-123" 1700000000 ≠ .ok (fname, ops) :=
  empty_export_atomic ⟨["PO_NUMBER"], []⟩ "PO-123" 1700000000 rfl

/-! ### C7: lemmas and theorem -/

lemma subUnsafeRuns_all_safe (cs : List Char) :
    ∀ b, (subUnsafeRuns b cs).all safeChar = true := by
  induction cs with
  | nil => intro b; rfl
  | cons c rest ih =>
    intro b
    rw [subUnsafeRuns]
    by_cases hc : safeChar c
    · rw [if_pos hc, List.all_cons, ih false, hc]
      rfl
    · rw [if_neg hc]
      by_cases hb : b
      · rw [if_pos hb]
        exact ih true
      · rw [if_neg hb, List.all_cons, ih true]
        decide

/-- C7: tag sanitization.  The filename tag component is nonempty, at most
50 characters long and drawn from `[A-Za-z0-9_-]`, and a non-empty table is
exported under the filename `resultado_{tag}_{unixTimestamp}.xlsx` built
from exactly that sanitized component. -/
theorem tag_sanitization (tag : String) (df : DataFrame) (now : Nat) :
    safe_tag tag ≠ "" ∧
    (safe_tag tag).toList.length ≤ 50 ∧
    (safe_tag tag).toList.all safeChar = true ∧
    (dfEmpty df = false →
      save_and_upload df tag now =
        .ok ("resultado_" ++ safe_tag tag ++ "_" ++ toString now ++ ".xlsx",
          [.writeLocal ("resultado_" ++ safe_tag tag ++ "_" ++ toString now ++ ".xlsx"),
           .uploadDrive ("resultado_" ++ safe_tag tag ++ "_" ++ toString now ++ ".xlsx"),
           .removeLocal ("resultado_" ++ safe_tag tag ++ "_" ++ toString now ++ ".xlsx")])) := by
  refine ⟨?_, ?_, ?_, ?_⟩
  · rw [safe_tag]
    by_cases hs : pyTake 50 (String.mk (subUnsafeRuns false tag.toList)) = ""
    · rw [if_pos hs]; decide
    · rw [if_neg hs]; exact hs
  · rw [safe_tag]
    by_cases hs : pyTake 50 (String.mk (subUnsafeRuns false tag.toList)) = ""
    · rw [if_pos hs]; decide
    · rw [if_neg hs]
      show ((subUnsafeRuns false tag.toList).take 50).length ≤ 50
      rw [List.length_take]
      exact Nat.min_le_left _ _
  · rw [safe_tag]
    by_cases hs : pyTake 50 (String.mk (subUnsafeRuns false tag.toList)) = ""
    · rw [if_pos hs]; decide
    · rw [if_neg hs]
      show ((subUnsafeRuns false tag.toList).take 50).all safeChar = true
      exact List.all_eq_true.mpr fun c hc =>
        List.all_eq_true.mp (subUnsafeRuns_all_safe tag.toList false) c
          (List.mem_of_mem_take hc)
  · intro hne
    rw [save_and_upload, if_neg (by simp [hne])]

/-- Witness for C7: the spec's own example tag. -/
theorem tag_sanitization_witness :
    safe_tag "PO-1234!!/../etc" ≠ "" ∧
    (safe_tag "PO-1234!!/../etc").toList.length ≤ 50 ∧
    (safe_tag "PO-1234!!/../etc").toList.all safeChar = true ∧
    (dfEmpty ⟨["PO_NUMBER"], [["x"]]⟩ = false →
      save_and_upload ⟨["PO_NUMBER"], [["x"]]⟩ "PO-1234!!/../etc" 1700000000 =
        .ok ("resultado_" ++ safe_tag "PO-1234!!/../etc" ++ "_" ++
              toString 1700000000 ++ ".xlsx",
          [.writeLocal ("resultado_" ++ safe_tag "PO-1234!!/../etc" ++ "_" ++
              toString 1700000000 ++ ".xlsx"),
           .uploadDrive ("resultado_" ++ safe_tag "PO-1234!!/../etc" ++ "_" ++
              toString 1700000000 ++ ".xlsx"),
           .removeLocal ("resultado_" ++ safe_tag "PO-1234!!/../etc" ++ "_" ++
              toString 1700000000 ++ ".xlsx")])) :=
  tag_sanitization "PO-1234!!/../etc" ⟨["PO_NUMBER"], [["x"]]⟩ 1700000000

/-! ### `get_app_token` (src/app.py lines 39-66)

The module globals and ambient inputs become explicit arguments: the
`_token_cache` dict, the current `time.time()` (a rational, standing for
the float), the `APP_ID`/`APP_SECRET` environment values (`none` models an
unset variable, `some ""` an empty one — both falsy), and the token
endpoint's response for the single POST the call would make.  The result
records the outcome, the cache afterwards, and whether the network was
hit. -/

structure TokenCache where
  value : Option String
  exp : ℚ
  deriving DecidableEq

/-- The module-initial `_token_cache = {"value": None, "exp": 0.0}`. -/
def initTokenCache : TokenCache := ⟨none, 0⟩

/-- The token endpoint's JSON body and transport metadata.  `none` fields
model keys absent from the JSON. -/
structure TokenResp where
  status : Nat
  contentType : String
  app_access_token : Option String
  access_token : Option String
  expire : Option Int
  expires_in : Option Int
  deriving DecidableEq

structure TokenResult where
  outcome : Except BotErr String
  cache : TokenCache
  networkCalled : Bool
  deriving DecidableEq

/-- Python truthiness of an optional string (`None` and `""` are falsy). -/
def truthyOptStr : Option String → Bool
  | some s => s ≠ ""
  | none => false

/-- `data.get("app_access_token") or data.get("access_token")`. -/
def tokField (resp : TokenResp) : Option String :=
  match resp.app_access_token with
  | some s => if s = "" then resp.access_token else some s
  | none => resp.access_token

/-- `int(data.get("expire") or data.get("expires_in") or 3600)`
(`0` is falsy and falls through). -/
def expField (resp : TokenResp) : Int :=
  match resp.expire with
  | some x => if x = 0 then
      (match resp.expires_in with
       | some y => if y = 0 then 3600 else y
       | none => 3600)
    else x
  | none =>
    match resp.expires_in with
    | some y => if y = 0 then 3600 else y
    | none => 3600

/-- The fetch path of `get_app_token` (everything after the cache check):
credential check, POST, status/content-type check, `if not tok: raise`,
cache overwrite. -/
def fetchToken (app_id app_secret : Option String) (cache : TokenCache)
    (now : ℚ) (resp : TokenResp) : TokenResult :=
  if truthyOptStr app_id = false ∨ truthyOptStr app_secret = false then
    ⟨.error (.authConfig "APP_ID/APP_SECRET não configurados"), cache, false⟩
  else
    if resp.status ≠ 200 ∨ pyContains (pyLower resp.contentType) "application/json" = false then
      ⟨.error (.authRequest "Falha ao obter token"), cache, true⟩
    else
      if truthyOptStr (tokField resp) = false then
        ⟨.error (.authResponse "Resposta sem token"), cache, true⟩
      else
        ⟨.ok ((tokField resp).getD ""),
          ⟨some ((tokField resp).getD ""), now + (expField resp : ℚ)⟩, true⟩

/-- `get_app_token` (src/app.py lines 39-66).  Note the order: the cache
check precedes the credential check. -/
def get_app_token (app_id app_secret : Option String) (cache : TokenCache)
    (now : ℚ) (resp : TokenResp) : TokenResult :=
  match cache.value with
  | some v =>
    if v ≠ "" ∧ cache.exp - now > 60 then ⟨.ok v, cache, false⟩
    else fetchToken app_id app_secret cache now resp
  | none => fetchToken app_id app_secret cache now resp

/-! ### C4: lemmas and theorem -/

lemma fetchToken_network (aid sec : String) (ha : aid ≠ "") (hs : sec ≠ "")
    (cache : TokenCache) (now : ℚ) (resp : TokenResp) :
    (fetchToken (some aid) (some sec) cache now resp).networkCalled = true := by
  rw [fetchToken, if_neg (by simp [truthyOptStr, ha, hs])]
  split
  · rfl
  · split <;> rfl

lemma fetchToken_success (aid sec : String) (ha : aid ≠ "") (hs : sec ≠ "")
    (cache : TokenCache) (now : ℚ) (resp : TokenResp)
    (h200 : resp.status = 200)
    (hct : pyContains (pyLower resp.contentType) "application/json" = true)
    (t : String) (htok : tokField resp = some t) (htne : t ≠ "") :
    fetchToken (some aid) (some sec) cache now resp =
      ⟨.ok t, ⟨some t, now + (expField resp : ℚ)⟩, true⟩ := by
  rw [fetchToken, if_neg (by simp [truthyOptStr, ha, hs])]
  rw [if_neg (by simp [h200, hct])]
  rw [if_neg (by simp [truthyOptStr, htok, htne])]
  rw [htok]
  rfl

/-- C4: token cache reuse policy.  With credentials configured and a
non-blank cached token, the cached value is returned with no network call
and no cache change iff the cached expiry exceeds the current time by more
than 60 seconds; otherwise the network is hit, and a well-formed response
overwrites the single cached pair with the fetched token and its expiry. -/
theorem token_cache_reuse (aid sec v : String) (ha : aid ≠ "") (hs : sec ≠ "")
    (cache : TokenCache) (now : ℚ) (resp : TokenResp)
    (hv : cache.value = some v) (hvne : v ≠ "") :
    ((get_app_token (some aid) (some sec) cache now resp).networkCalled = false ∧
     (get_app_token (some aid) (some sec) cache now resp).outcome = .ok v ∧
     (get_app_token (some aid) (some sec) cache now resp).cache = cache
       ↔ cache.exp - now > 60) ∧
    (cache.exp - now ≤ 60 →
      (get_app_token (some aid) (some sec) cache now resp).networkCalled = true ∧
      (resp.status = 200 → pyContains (pyLower resp.contentType) "application/json" = true →
        ∀ t, tokField resp = some t → t ≠ "" →
          (get_app_token (some aid) (some sec) cache now resp).outcome = .ok t ∧
          (get_app_token (some aid) (some sec) cache now resp).cache =
            ⟨some t, now + (expField resp : ℚ)⟩)) := by
  have hred : get_app_token (some aid) (some sec) cache now resp =
      if v ≠ "" ∧ cache.exp - now > 60 then ⟨.ok v, cache, false⟩
      else fetchToken (some aid) (some sec) cache now resp := by
    rw [get_app_token, hv]
  rw [hred]
  constructor
  · constructor
    · intro hcached
      by_cases hfresh : v ≠ "" ∧ cache.exp - now > 60
      · exact hfresh.2
      · exfalso
        rw [if_neg hfresh] at hcached
        have hnet := fetchToken_network aid sec ha hs cache now resp
        rw [hcached.1] at hnet
        exact absurd hnet (by decide)
    · intro hfresh
      rw [if_pos ⟨hvne, hfresh⟩]
      exact ⟨rfl, rfl, rfl⟩
  · intro hstale
    rw [if_neg (fun hx => absurd hx.2 (not_lt.mpr hstale))]
    refine ⟨fetchToken_network aid sec ha hs cache now resp, ?_⟩
    intro h200 hct t htok htne
    rw [fetchToken_success aid sec ha hs cache now resp h200 hct t htok htne]
    exact ⟨rfl, rfl⟩

/-- A well-formed token response for the C4/C9 witnesses. -/
def respW : TokenResp :=
  ⟨200, "application/json; charset=utf-8", some "tok-new", none, some 7200, none⟩

/-- Witness for C4: a stale cache entry forces a refresh that overwrites
the pair. -/
theorem token_cache_reuse_witness :
    ((get_app_token (some "id1") (some "sec1") ⟨some "tok-old", 100⟩ 90 respW).networkCalled = false ∧
     (get_app_token (some "id1") (some "sec1") ⟨some "tok-old", 100⟩ 90 respW).outcome = .ok "tok-old" ∧
     (get_app_token (some "id1") (some "sec1") ⟨some "tok-old", 100⟩ 90 respW).cache = ⟨some "tok-old", 100⟩
       ↔ (100 : ℚ) - 90 > 60) ∧
    ((100 : ℚ) - 90 ≤ 60 →
      (get_app_token (some "id1") (some "sec1") ⟨some "tok-old", 100⟩ 90 respW).networkCalled = true ∧
      (respW.status = 200 → pyContains (pyLower respW.contentType) "application/json" = true →
        ∀ t, tokField respW = some t → t ≠ "" →
          (get_app_token (some "id1") (some "sec1") ⟨some "tok-old", 100⟩ 90 respW).outcome = .ok t ∧
          (get_app_token (some "id1") (some "sec1") ⟨some "tok-old", 100⟩ 90 respW).cache =
            ⟨some t, 90 + (expField respW : ℚ)⟩)) :=
  token_cache_reuse "id1" "sec1" "tok-old" (by decide) (by decide)
    ⟨some "tok-old", 100⟩ 90 respW rfl (by decide)

/-! ### C9: counterexample and amended theorem -/

/-- Counterexample for C9: `get_app_token` consults the cache (line 42)
before the credential check (line 45), so an input state holding a fresh
non-blank cached token returns that token with the application id and
secret unset — refuting the claim's "no input state in which getToken
returns a token while id/secret are unset". -/
theorem token_config_failure_cex :
    get_app_token none none ⟨some "cached", 1000⟩ 0 respW =
      ⟨.ok "cached", ⟨some "cached", 1000⟩, false⟩ := by
  have hred : get_app_token none none ⟨some "cached", 1000⟩ 0 respW =
      if ("cached" : String) ≠ "" ∧ (1000 : ℚ) - 0 > 60
      then ⟨.ok "cached", ⟨some "cached", 1000⟩, false⟩
      else fetchToken none none ⟨some "cached", 1000⟩ 0 respW := rfl
  rw [hred, if_pos ⟨by decide, by norm_num⟩]

/-- C9 amended: with the application id or secret unset (or blank), any
call made from a state in which the cache-reuse check fails — no cached
value, a blank cached value, or at most 60 seconds of remaining validity;
in particular the initial empty cache, the only state reachable while the
credentials are unset — fails with `AuthConfigError`, performs no network
call and leaves the cache unchanged. -/
theorem token_config_failure (app_id app_secret : Option String)
    (cache : TokenCache) (now : ℚ) (resp : TokenResp)
    (hcfg : truthyOptStr app_id = false ∨ truthyOptStr app_secret = false)
    (hmiss : truthyOptStr cache.value = false ∨ cache.exp - now ≤ 60) :
    get_app_token app_id app_secret cache now resp =
      ⟨.error (.authConfig "APP_ID/APP_SECRET não configurados"), cache, false⟩ := by
  obtain ⟨cv, cexp⟩ := cache
  have hfetch : fetchToken app_id app_secret ⟨cv, cexp⟩ now resp =
      ⟨.error (.authConfig "APP_ID/APP_SECRET não configurados"), ⟨cv, cexp⟩, false⟩ := by
    rw [fetchToken, if_pos hcfg]
  cases cv with
  | none => exact hfetch
  | some v =>
    have hred : get_app_token app_id app_secret ⟨some v, cexp⟩ now resp =
        if v ≠ "" ∧ (⟨some v, cexp⟩ : TokenCache).exp - now > 60
        then ⟨.ok v, ⟨some v, cexp⟩, false⟩
        else fetchToken app_id app_secret ⟨some v, cexp⟩ now resp := rfl
    rw [hred, if_neg ?hcond]
    · exact hfetch
    case hcond =>
      rintro ⟨hne, hgt⟩
      rcases hmiss with hm | hm
      · simp [truthyOptStr] at hm
        exact hne hm
      · exact absurd hgt (not_lt.mpr hm)

/-- Witness for the amended C9: the initial cache with unset credentials. -/
theorem token_config_failure_witness :
    get_app_token none (some "s") initTokenCache 0 respW =
      ⟨.error (.authConfig "APP_ID/APP_SECRET não configurados"), initTokenCache, false⟩ :=
  token_config_failure none (some "s") initTokenCache 0 respW (Or.inl rfl)
    (Or.inl rfl)

/-! ### `handle_command` (src/app.py lines 226-271)

The dispatcher is embedded as a pure function from the inbound text to the
list of actions it performs, in order: direct messages sent, scans started
and exports produced.  The ambient collaborators (drive configuration
flags, `_scan_gls_apply` results, upload links, clock readings) are
gathered into a `DispatchEnv`.  The three drive environment variables are
collapsed into the single flag `driveOk` — the code only ever tests their
conjunction. -/

/-- Python's `\w` (ASCII model), for the `\b` boundaries of the dispatch
pattern. -/
def isWordChar (c : Char) : Bool :=
  c.isAlpha || c.isDigit || c == '_'

/-- Match `(?i)\b(po|pr)\b[^0-9]*([0-9]{3,})` at a start position, where
`prev` is the character before the position (`none` at the string start).
`[^0-9]*` deterministically eats the maximal non-digit run (its
backtracking can never help `[0-9]{3,}`), and the digit group is greedy. -/
def matchDispatchAt (prev : Option Char) (cs : List Char) : Option (String × String) :=
  if (match prev with
      | none => true
      | some p => !isWordChar p) = false then none
  else
    match cs with
    | c1 :: c2 :: rest =>
      match (if c1.toLower = 'p' ∧ c2.toLower = 'o' then some "PO"
             else if c1.toLower = 'p' ∧ c2.toLower = 'r' then some "PR"
             else none) with
      | none => none
      | some typ =>
        if (match rest with
            | [] => true
            | d :: _ => !isWordChar d) = false then none
        else
          match (rest.dropWhile (fun d => !d.isDigit)).takeWhile Char.isDigit with
          | ds =>
            if ds.length ≥ 3 then some (typ, String.mk ds) else none
    | _ => none

/-- `re.search` of the dispatch pattern: leftmost start position wins. -/
def searchDispatch (prev : Option Char) : List Char → Option (String × String)
  | [] => none
  | c :: rest =>
    match matchDispatchAt prev (c :: rest) with
    | some v => some v
    | none => searchDispatch (some c) rest

/-- One left-to-right pass implementing `re.findall(r"[A-Za-z]?\d+", t)`:
`pending` holds a just-seen letter that a digit run may attach to, `cur`
the token currently being extended. -/
def tokensGo (pending : Option Char) (cur : List Char) : List Char → List (List Char)
  | [] => if cur = [] then [] else [cur]
  | c :: rest =>
    if c.isDigit then
      if cur = [] then
        match pending with
        | some l => tokensGo none [l, c] rest
        | none => tokensGo none [c] rest
      else tokensGo none (cur ++ [c]) rest
    else if c.isAlpha then
      if cur = [] then tokensGo (some c) [] rest
      else cur :: tokensGo (some c) [] rest
    else
      if cur = [] then tokensGo none [] rest
      else cur :: tokensGo none [] rest

/-- `re.findall(r"[A-Za-z]?\d+", t)`. -/
def findTokens (cs : List Char) : List (List Char) :=
  tokensGo none [] cs

/-- `ids = re.findall(...); journals = [j for j in ids if any(ch.isdigit()
for ch in j)]` (src/app.py lines 256-257). -/
def extract_journals (t : String) : List String :=
  ((findTokens t.toList).map String.mk).filter
    (fun j => j.toList.any Char.isDigit)

/-- The shape every extracted id actually has: an optional single ASCII
letter followed by one or more digits. -/
def letterDigitsTok : List Char → Bool
  | [] => false
  | c :: rest =>
    if c.isAlpha then !rest.isEmpty && rest.all Char.isDigit
    else (c :: rest).all Char.isDigit

inductive Act
  | send (text : String)
  | scanPoPr (query : String)
  | scanJournals (ids : List String)
  | exportFile (tag : String)
  deriving DecidableEq, Repr

structure DispatchEnv where
  driveOk : Bool
  scanPo : String → DataFrame
  scanJournal : List String → DataFrame
  nowStr : String
  uptime : Nat
  nowTs : Nat
  link : String → String

def HELP_TEXT : String :=
  "🤖 *Seatalk Accountant Bot*\n" ++
  "Comandos:\n" ++
  "- `help` → mostra este menu\n" ++
  "- `status` → ver se estou online\n" ++
  "- `ping` → teste rápido\n" ++
  "- `po 12345` / `pr 12345` → busca PR/PO nos GL recentes e envia o Excel\n" ++
  "- `journal J12345 [J67890 ...]` → busca 1+ journals e envia Excel\n"

def fallbackMsg : String := "Não entendi 🤔. Digite `help` para ver os comandos."

def journalPrompt : String :=
  "Me diga os JOURNALs. Ex.: `journal J12345` ou `journal J123 J456`"

/-- Python `{n:,}` formatting: digit groups of three separated by commas.
The input digit list is reversed. -/
def groupRev : List Char → Nat → List Char
  | [], _ => []
  | c :: rest, k =>
    if k = 3 then ',' :: c :: groupRev rest 1
    else c :: groupRev rest (k + 1)

def pyThousands (n : Nat) : String :=
  String.mk ((groupRev (toString n).toList.reverse 0).reverse)

/-- The `po`/`pr` branch body (src/app.py lines 243-252): announce, scan
up to 12 files, then either the not-found reply or export and link.  A
`.error` from `_save_and_upload` cannot occur here (the frame was just
checked non-empty); the model then ends the trace like the raised
exception would. -/
def po_branch (env : DispatchEnv) (typ num : String) : List Act :=
  if dfEmpty (env.scanPo (typ ++ "-" ++ num)) then
    [Act.send ("🔎 Buscando " ++ (typ ++ "-" ++ num) ++ " nos GL mais recentes..."),
     Act.scanPoPr (typ ++ "-" ++ num),
     Act.send ("❌ Não achei " ++ (typ ++ "-" ++ num) ++ " nos últimos GLs.")]
  else
    match save_and_upload (env.scanPo (typ ++ "-" ++ num)) (typ ++ "-" ++ num) env.nowTs with
    | .ok (fname, _) =>
      [Act.send ("🔎 Buscando " ++ (typ ++ "-" ++ num) ++ " nos GL mais recentes..."),
       Act.scanPoPr (typ ++ "-" ++ num),
       Act.exportFile (typ ++ "-" ++ num),
       Act.send ("✅ Achei " ++ (typ ++ "-" ++ num) ++ ". Baixe aqui:\n" ++ env.link fname)]
    | .error _ =>
      [Act.send ("🔎 Buscando " ++ (typ ++ "-" ++ num) ++ " nos GL mais recentes..."),
       Act.scanPoPr (typ ++ "-" ++ num)]

/-- The journal branch after the ids are known non-empty (src/app.py
lines 261-268). -/
def journal_tail (env : DispatchEnv) (journals : List String) : List Act :=
  if dfEmpty (env.scanJournal journals) then
    [Act.send "❌ Não encontrei esses journals nos GLs recentes."]
  else
    match save_and_upload (env.scanJournal journals)
        ("journals_" ++ pyJoin "_" journals) env.nowTs with
    | .ok (fname, _) =>
      [Act.exportFile ("journals_" ++ pyJoin "_" journals),
       Act.send ("✅ Arquivo com " ++ pyThousands (env.scanJournal journals).rows.length ++
         " linha(s) gerado. Baixe aqui:\n" ++ env.link fname)]
    | .error _ => []

/-- The journal branch (src/app.py lines 255-268). -/
def journal_branch (env : DispatchEnv) (t : String) : List Act :=
  if extract_journals t = [] then [Act.send journalPrompt]
  else
    Act.send ("🔎 Buscando journals: " ++ pyJoin ", " (extract_journals t) ++ " ...") ::
    Act.scanJournals (extract_journals t) ::
    journal_tail env (extract_journals t)

/-- The dispatcher after the PO/PR branch declined: the journal test, else
the fallback reply. -/
def rest_after_po (env : DispatchEnv) (text_in : String) : List Act :=
  if (pyStartsWith (pyLower (pyStrip text_in)) "journal" ||
      pyStartsWith (pyLower (pyStrip text_in)) "journals") && env.driveOk then
    journal_branch env (pyStrip text_in)
  else [Act.send fallbackMsg]

/-- `handle_command` (src/app.py lines 226-271).  Branch order is the
code's: help (exact, case-sensitive), status, ping, the PO/PR pattern
guarded by drive config, the journal prefix guarded by drive config, then
the fallback. -/
def handle_command (env : DispatchEnv) (text_in : String) : List Act :=
  if pyStrip text_in = "help" ∨ pyStrip text_in = "/help" ∨ pyStrip text_in = "ajuda" then
    [Act.send HELP_TEXT]
  else if pyLower (pyStrip text_in) = "status" then
    [Act.send ("✅ Online — " ++ env.nowStr ++ " | uptime " ++ toString env.uptime ++ "s")]
  else if pyLower (pyStrip text_in) = "ping" then
    [Act.send "pong"]
  else
    match searchDispatch none (pyStrip text_in).toList with
    | some (typ, num) =>
      if env.driveOk then po_branch env typ num
      else rest_after_po env text_in
    | none => rest_after_po env text_in

/-! ### C8: lemmas, counterexample, amended theorem -/

lemma digit_not_alpha (c : Char) (h : c.isDigit = true) : c.isAlpha = false := by
  rw [Char.isDigit] at h
  simp only [Bool.and_eq_true, decide_eq_true_eq, ge_iff_le] at h
  have h2 : c.val.toNat ≤ (57 : UInt32).toNat := h.2
  have h57 : (57 : UInt32).toNat = 57 := rfl
  rw [Char.isAlpha, Char.isUpper, Char.isLower]
  have h65 : ¬((65 : UInt32) ≤ c.val) := by
    intro hcon
    have hc : (65 : UInt32).toNat ≤ c.val.toNat := hcon
    have h65n : (65 : UInt32).toNat = 65 := rfl
    omega
  have h97 : ¬((97 : UInt32) ≤ c.val) := by
    intro hcon
    have hc : (97 : UInt32).toNat ≤ c.val.toNat := hcon
    have h97n : (97 : UInt32).toNat = 97 := rfl
    omega
  simp [h65, h97]

lemma letterDigitsTok_append_digit (cur : List Char) (c : Char)
    (hcur : letterDigitsTok cur = true) (hc : c.isDigit = true) :
    letterDigitsTok (cur ++ [c]) = true := by
  match cur with
  | [] => simp [letterDigitsTok] at hcur
  | a :: rest =>
    rw [List.cons_append]
    rw [letterDigitsTok] at hcur ⊢
    by_cases ha : a.isAlpha
    · rw [if_pos ha] at hcur ⊢
      rw [Bool.and_eq_true] at hcur
      obtain ⟨hne, hall⟩ := hcur
      rw [Bool.and_eq_true]
      refine ⟨by simp, ?_⟩
      rw [List.all_append]
      simp [hall, hc]
    · rw [if_neg ha] at hcur ⊢
      rw [List.all_cons, Bool.and_eq_true] at hcur
      obtain ⟨hda, hall⟩ := hcur
      rw [List.all_cons, List.all_append]
      simp [hda, hall, hc]

lemma tokensGo_shape (cs : List Char) :
    ∀ (pending : Option Char) (cur : List Char),
      (∀ l, pending = some l → l.isAlpha = true) →
      (cur = [] ∨ letterDigitsTok cur = true) →
      ∀ tok ∈ tokensGo pending cur cs, letterDigitsTok tok = true := by
  induction cs with
  | nil =>
    intro pending cur _ hc tok htok
    rw [tokensGo] at htok
    by_cases h : cur = []
    · rw [if_pos h] at htok
      simp at htok
    · rw [if_neg h] at htok
      simp at htok
      rcases hc with rfl | hcs
      · exact absurd rfl h
      · rw [htok]; exact hcs
  | cons c rest ih =>
    intro pending cur hp hc tok htok
    cases hpend : pending with
    | some l =>
      rw [hpend] at htok
      rw [tokensGo] at htok
      by_cases hd : c.isDigit
      · rw [if_pos hd] at htok
        by_cases hcur : cur = []
        · rw [if_pos hcur] at htok
          refine ih none [l, c] (by simp) (Or.inr ?_) tok htok
          have hl := hp l hpend
          simp [letterDigitsTok, hl, hd]
        · rw [if_neg hcur] at htok
          refine ih none (cur ++ [c]) (by simp) (Or.inr ?_) tok htok
          rcases hc with rfl | hcs
          · exact absurd rfl hcur
          · exact letterDigitsTok_append_digit cur c hcs hd
      · rw [if_neg hd] at htok
        by_cases ha : c.isAlpha
        · rw [if_pos ha] at htok
          by_cases hcur : cur = []
          · rw [if_pos hcur] at htok
            exact ih (some c) [] (fun x hx => by cases hx; exact ha) (Or.inl rfl) tok htok
          · rw [if_neg hcur] at htok
            rcases List.mem_cons.mp htok with rfl | htok2
            · rcases hc with rfl | hcs
              · exact absurd rfl hcur
              · exact hcs
            · exact ih (some c) [] (fun x hx => by cases hx; exact ha) (Or.inl rfl) tok htok2
        · rw [if_neg ha] at htok
          by_cases hcur : cur = []
          · rw [if_pos hcur] at htok
            exact ih none [] (by simp) (Or.inl rfl) tok htok
          · rw [if_neg hcur] at htok
            rcases List.mem_cons.mp htok with rfl | htok2
            · rcases hc with rfl | hcs
              · exact absurd rfl hcur
              · exact hcs
            · exact ih none [] (by simp) (Or.inl rfl) tok htok2
    | none =>
      rw [hpend] at htok
      rw [tokensGo] at htok
      by_cases hd : c.isDigit
      · rw [if_pos hd] at htok
        by_cases hcur : cur = []
        · rw [if_pos hcur] at htok
          refine ih none [c] (by simp) (Or.inr ?_) tok htok
          simp [letterDigitsTok, hd, digit_not_alpha c hd]
        · rw [if_neg hcur] at htok
          refine ih none (cur ++ [c]) (by simp) (Or.inr ?_) tok htok
          rcases hc with rfl | hcs
          · exact absurd rfl hcur
          · exact letterDigitsTok_append_digit cur c hcs hd
      · rw [if_neg hd] at htok
        by_cases ha : c.isAlpha
        · rw [if_pos ha] at htok
          by_cases hcur : cur = []
          · rw [if_pos hcur] at htok
            exact ih (some c) [] (fun x hx => by cases hx; exact ha) (Or.inl rfl) tok htok
          · rw [if_neg hcur] at htok
            rcases List.mem_cons.mp htok with rfl | htok2
            · rcases hc with rfl | hcs
              · exact absurd rfl hcur
              · exact hcs
            · exact ih (some c) [] (fun x hx => by cases hx; exact ha) (Or.inl rfl) tok htok2
        · rw [if_neg ha] at htok
          by_cases hcur : cur = []
          · rw [if_pos hcur] at htok
            exact ih none [] (by simp) (Or.inl rfl) tok htok
          · rw [if_neg hcur] at htok
            rcases List.mem_cons.mp htok with rfl | htok2
            · rcases hc with rfl | hcs
              · exact absurd rfl hcur
              · exact hcs
            · exact ih none [] (by simp) (Or.inl rfl) tok htok2

/-- A concrete dispatch environment whose scans find nothing, used by the
C8 counterexample and witness. -/
def envC : DispatchEnv :=
  ⟨true, fun _ => ⟨[], []⟩, fun _ => ⟨[], []⟩, "2025-10-12 00:00:00 -03",
    5, 1700000000, fun f => "https://drive.example/" ++ f⟩

/-- Counterexample for C8.  First, the extraction pattern `[A-Za-z]?\d+`
keeps at most one leading letter, so the message `"journal AB123"` yields
the id `"B123"`, not the claimed alphanumeric token `"AB123"`.  Second,
the PO/PR branch is tested first, so the message `"journal po 123"` —
which starts with `journal` and carries the extractable id `"123"` —
triggers a PO scan and never a journal scan. -/
theorem journal_id_extraction_cex :
    extract_journals "journal AB123" = ["B123"] ∧
    "AB123" ∉ extract_journals "journal AB123" ∧
    handle_command envC "journal po 123" =
      [Act.send "🔎 Buscando PO-123 nos GL mais recentes...",
       Act.scanPoPr "PO-123",
       Act.send "❌ Não achei PO-123 nos últimos GLs."] ∧
    Act.scanJournals ["123"] ∉ handle_command envC "journal po 123" :=
  ⟨by decide, by decide, by decide, by decide⟩

/-- C8 (amended): for every inbound message starting with
`journal`/`journals` (case-insensitive) when drive config is present and
the message does not match the PO/PR dispatch pattern, the dispatcher
extracts as journal ids all tokens made of an optional single ASCII letter
followed by digits (so `"AB123"` yields `"B123"`); if none are extracted
it replies with a prompt for ids instead of scanning, otherwise it
announces and scans exactly those ids. -/
theorem journal_id_extraction (env : DispatchEnv) (text_in : String)
    (hdrive : env.driveOk = true)
    (hstart : pyStartsWith (pyLower (pyStrip text_in)) "journal" = true)
    (hnopo : searchDispatch none (pyStrip text_in).toList = none) :
    handle_command env text_in =
      (if extract_journals (pyStrip text_in) = [] then [Act.send journalPrompt]
       else
         Act.send ("🔎 Buscando journals: " ++
             pyJoin ", " (extract_journals (pyStrip text_in)) ++ " ...") ::
         Act.scanJournals (extract_journals (pyStrip text_in)) ::
         journal_tail env (extract_journals (pyStrip text_in))) ∧
    (extract_journals (pyStrip text_in)).all
      (fun j => letterDigitsTok j.toList) = true := by
  have h1 : ¬(pyStrip text_in = "help" ∨ pyStrip text_in = "/help" ∨
      pyStrip text_in = "ajuda") := by
    rintro (ht | ht | ht) <;> rw [ht] at hstart <;> exact absurd hstart (by decide)
  have h2 : ¬(pyLower (pyStrip text_in) = "status") := by
    intro ht; rw [ht] at hstart; exact absurd hstart (by decide)
  have h3 : ¬(pyLower (pyStrip text_in) = "ping") := by
    intro ht; rw [ht] at hstart; exact absurd hstart (by decide)
  constructor
  · rw [handle_command, if_neg h1, if_neg h2, if_neg h3, hnopo]
    have hstep : (match (none : Option (String × String)) with
        | some (typ, num) =>
          if env.driveOk then po_branch env typ num else rest_after_po env text_in
        | none => rest_after_po env text_in) = rest_after_po env text_in := rfl
    rw [hstep, rest_after_po, if_pos (by rw [hstart]; simp [hdrive])]
    rw [journal_branch]
  · apply List.all_eq_true.mpr
    intro j hj
    simp only [extract_journals, List.mem_filter, List.mem_map] at hj
    obtain ⟨⟨tok, htok, rfl⟩, _⟩ := hj
    show letterDigitsTok tok = true
    exact tokensGo_shape _ none [] (by simp) (Or.inl rfl) tok htok

/-- Witness for the amended C8: the message `"journal J123"` in the
concrete environment. -/
theorem journal_id_extraction_witness :
    handle_command envC "journal J123" =
      (if extract_journals (pyStrip "journal J123") = [] then [Act.send journalPrompt]
       else
         Act.send ("🔎 Buscando journals: " ++
             pyJoin ", " (extract_journals (pyStrip "journal J123")) ++ " ...") ::
         Act.scanJournals (extract_journals (pyStrip "journal J123")) ::
         journal_tail envC (extract_journals (pyStrip "journal J123"))) ∧
    (extract_journals (pyStrip "journal J123")).all
      (fun j => letterDigitsTok j.toList) = true :=
  journal_id_extraction envC "journal J123" rfl (by decide) (by decide)

/-! ### `seatalk_events` (src/app.py lines 274-317)

The decoded payload is modelled by a typed record: the four possible
challenge slots carry arbitrary JSON scalars (`JVal`), `event_type` an
optional string, and `event` an optional nested object (the
`isinstance(payload.get("event"), dict)` guard corresponds to the field
being present).  The response is either the handshake JSON envelope or the
plain-text `"ok"`, the latter recording whether — and with which employee
code and message text — the Command Dispatcher was invoked. -/

inductive JVal
  | jnull
  | jbool (b : Bool)
  | jint (n : Int)
  | jstr (s : String)
  deriving DecidableEq, Repr

/-- Python truthiness of a JSON scalar. -/
def truthy : JVal → Bool
  | .jnull => false
  | .jbool b => b
  | .jint n => n ≠ 0
  | .jstr s => s ≠ ""

/-- Python `str()` of a JSON scalar. -/
def pyStr : JVal → String
  | .jnull => "None"
  | .jbool b => if b then "True" else "False"
  | .jint n => toString n
  | .jstr s => s

structure EventObj where
  seatalk_challenge : Option JVal
  challenge : Option JVal
  employee_code : Option String
  text_content : Option String
  deriving DecidableEq

structure Payload where
  seatalk_challenge : Option JVal
  challenge : Option JVal
  event_type : Option String
  event : Option EventObj
  deriving DecidableEq

/-- `payload.get(k)`: an absent key reads as `None`. -/
def getJ : Option JVal → JVal
  | some v => v
  | none => .jnull

/-- Python `a or b`. -/
def pyOrJ (a b : JVal) : JVal :=
  if truthy a then a else b

/-- The challenge value after lines 294-298: top-level
`seatalk_challenge or challenge`, then, if that is falsy and an event
object is present, the same chain nested under `event`. -/
def challengeChain (p : Payload) : JVal :=
  let c1 := pyOrJ (getJ p.seatalk_challenge) (getJ p.challenge)
  if truthy c1 = false then
    match p.event with
    | some ev => pyOrJ (getJ ev.seatalk_challenge) (getJ ev.challenge)
    | none => c1
  else c1

inductive WebhookResp
  | handshake (echoed : String)
  | okResp (dispatched : Option (String × String))
  deriving DecidableEq, Repr

/-- `((msg.get("text") or {}).get("content") or "").strip()` for the
modelled message content. -/
def eventText (ev : EventObj) : String :=
  pyStrip (match ev.text_content with
    | some s => s
    | none => "")

/-- `seatalk_events` (src/app.py lines 274-317): handshake first, then
normal-event dispatch, always answering `"ok"` otherwise.  The dispatcher
invocation is recorded (employee code and stripped text) rather than
inlined; its exceptions are caught by the endpoint (lines 312-316) and do
not change the response. -/
def seatalk_events (p : Payload) : WebhookResp :=
  if truthy (challengeChain p) then .handshake (pyStr (challengeChain p))
  else
    if (match p.event_type with
        | some s => s ≠ "" && s ≠ "event_verification"
        | none => false) then
      match p.event with
      | some ev =>
        match ev.employee_code with
        | some code => if code ≠ "" then .okResp (some (code, eventText ev)) else .okResp none
        | none => .okResp none
      | none => .okResp none
    else .okResp none

/-! ### C10: theorem -/

/-- C10: handshake precedence.  Whenever any of the four challenge slots
(`seatalk_challenge`/`challenge`, top-level or nested under `event`) holds
a truthy value, the endpoint answers the JSON envelope echoing the chain's
value coerced to a string — that value itself truthy — and the Command
Dispatcher is never invoked, whatever `event_type` and employee identifier
the payload also carries. -/
theorem handshake_precedence (p : Payload)
    (h : truthy (getJ p.seatalk_challenge) = true ∨
         truthy (getJ p.challenge) = true ∨
         (∃ ev, p.event = some ev ∧
           (truthy (getJ ev.seatalk_challenge) = true ∨
            truthy (getJ ev.challenge) = true))) :
    seatalk_events p = .handshake (pyStr (challengeChain p)) ∧
    truthy (challengeChain p) = true ∧
    ∀ d, seatalk_events p ≠ .okResp d := by
  have hch : truthy (challengeChain p) = true := by
    rw [challengeChain]
    by_cases h1 : truthy (pyOrJ (getJ p.seatalk_challenge) (getJ p.challenge)) = false
    · rw [if_pos h1]
      rcases h with hs | hc | ⟨ev, hev, hnest⟩
      · exfalso
        rw [pyOrJ, if_pos hs, hs] at h1
        cases h1
      · exfalso
        rw [pyOrJ] at h1
        by_cases hfst : truthy (getJ p.seatalk_challenge) = true
        · rw [if_pos hfst, hfst] at h1; cases h1
        · rw [if_neg hfst, hc] at h1; cases h1
      · rw [hev]
        show truthy (pyOrJ (getJ ev.seatalk_challenge) (getJ ev.challenge)) = true
        rcases hnest with hn | hn
        · rw [pyOrJ, if_pos hn]; exact hn
        · rw [pyOrJ]
          by_cases hfst : truthy (getJ ev.seatalk_challenge) = true
          · rw [if_pos hfst]; exact hfst
          · rw [if_neg hfst]; exact hn
    · rw [if_neg h1]
      exact Bool.not_eq_false _ ▸ (Bool.of_not_eq_false h1)
  refine ⟨?_, hch, ?_⟩
  · rw [seatalk_events, if_pos hch]
  · intro d hd
    rw [seatalk_events, if_pos hch] at hd
    cases hd

/-- Witness for C10: a payload carrying both a truthy challenge and a
normal-looking event with an employee code. -/
theorem handshake_precedence_witness :
    seatalk_events
        ⟨some (.jstr "abc"), none, some "message_from_bot_subscriber",
          some ⟨none, none, some "emp42", some "po 12345"⟩⟩ =
      .handshake (pyStr (challengeChain
        ⟨some (.jstr "abc"), none, some "message_from_bot_subscriber",
          some ⟨none, none, some "emp42", some "po 12345"⟩⟩)) ∧
    truthy (challengeChain
        ⟨some (.jstr "abc"), none, some "message_from_bot_subscriber",
          some ⟨none, none, some "emp42", some "po 12345"⟩⟩) = true ∧
    ∀ d, seatalk_events
        ⟨some (.jstr "abc"), none, some "message_from_bot_subscriber",
          some ⟨none, none, some "emp42", some "po 12345"⟩⟩ ≠ .okResp d :=
  handshake_precedence
    ⟨some (.jstr "abc"), none, some "message_from_bot_subscriber",
      some ⟨none, none, some "emp42", some "po 12345"⟩⟩
    (Or.inl (by decide))

end AccountantBot
